import Mathlib

/-!
Shallow embedding of the bouncing-image motion engine (three script variants:
the original `script.js`, a clamp-on-resize variant, and a clamping-update
variant).  Coordinates, sizes and velocities are modelled as rationals;
JavaScript `NaN` (from `parseFloat` of a missing style) is modelled as `none`
in an `Option ℚ`, and the `a || b` falsy-fallback idiom is modelled by
`jsOr` / `jsOrOpt`.
-/

namespace Rosmood

/-- The ambient viewport: `window.innerWidth` / `window.innerHeight`. -/
structure Viewport where
  w : ℚ
  h : ℚ
deriving DecidableEq, Repr

/-- One movable element as the scripts observe it: the parsed inline
`style.left` / `style.top` (`none` models `parseFloat` returning `NaN`),
its `getBoundingClientRect()` snapshot, and `offsetWidth` / `offsetHeight`. -/
structure Img where
  styleLeft : Option ℚ
  styleTop : Option ℚ
  rectLeft : ℚ
  rectTop : ℚ
  rectWidth : ℚ
  rectHeight : ℚ
  offsetWidth : ℚ
  offsetHeight : ℚ
deriving DecidableEq, Repr

/-- One entry of the `velocities` array: `{dx, dy, paused}`. -/
structure Vel where
  dx : ℚ
  dy : ℚ
  paused : Bool
deriving DecidableEq, Repr

/-- JavaScript `a || b` on two numbers, where the only falsy number is `0`. -/
def jsOr (a b : ℚ) : ℚ := if a = 0 then b else a

/-- JavaScript `a || b` where `a` may be `NaN` (modelled `none`), as in
`parseFloat(img.style.left) || rect.left`. -/
def jsOrOpt : Option ℚ → ℚ → ℚ
  | none, b => b
  | some a, b => if a = 0 then b else a

/-- `let left = parseFloat(img.style.left) || rect.left || 0;` -/
def readLeft (img : Img) : ℚ := jsOr (jsOrOpt img.styleLeft img.rectLeft) 0

/-- `let top = parseFloat(img.style.top) || rect.top || 0;` -/
def readTop (img : Img) : ℚ := jsOr (jsOrOpt img.styleTop img.rectTop) 0

/-- `function clamp(n, min, max) { return Math.max(min, Math.min(max, n)); }` -/
def clamp (n mi ma : ℚ) : ℚ := max mi (min ma n)

/-- Body of `clampAllPositionsToViewport` for one element: measure with
`rect.width || offsetWidth`, read the position with the falsy-fallback chain,
clamp into `[0, max 0 (viewport - size)]` and write the style back. -/
def clampOne (vp : Viewport) (img : Img) : Img :=
  let w := jsOr img.rectWidth img.offsetWidth
  let h := jsOr img.rectHeight img.offsetHeight
  let left := readLeft img
  let top := readTop img
  let maxLeft := max 0 (vp.w - w)
  let maxTop := max 0 (vp.h - h)
  { img with styleLeft := some (clamp left 0 maxLeft),
             styleTop := some (clamp top 0 maxTop) }

/-- `clampAllPositionsToViewport`: maps `clampOne` over the element list and
touches nothing else (in particular it never reads or writes `velocities`). -/
def clampAllPositionsToViewport (vp : Viewport) (imgs : List Img) : List Img :=
  imgs.map (clampOne vp)

/-- One unpaused iteration of the clamping `animate` loop (the variant whose
boundary response clamps the position to the edge and flips the velocity
sign).  Returns the updated element and velocity record. -/
def animateBody (vp : Viewport) (img : Img) (v : Vel) : Img × Vel :=
  if v.paused then (img, v) else
  let w := img.rectWidth
  let h := img.rectHeight
  let left := readLeft img + v.dx
  let top := readTop img + v.dy
  let maxLeft := max 0 (vp.w - w)
  let maxTop := max 0 (vp.h - h)
  let leftDx : ℚ × ℚ :=
    if left ≤ 0 then (0, -v.dx)
    else if left ≥ maxLeft then (maxLeft, -v.dx)
    else (left, v.dx)
  let topDy : ℚ × ℚ :=
    if top ≤ 0 then (0, -v.dy)
    else if top ≥ maxTop then (maxTop, -v.dy)
    else (top, v.dy)
  ({ img with styleLeft := some leftDx.1, styleTop := some topDy.1 },
   { v with dx := leftDx.2, dy := topDy.2 })

/-- One unpaused iteration of the original non-clamping `animate` loop
(`script.js`): position advances by the velocity and is written back as-is;
only the velocity sign is flipped on boundary contact.  `left`/`top` are the
already-parsed style coordinates and `w`/`h` the rect sizes. -/
def animateBodyNoClamp (vp : Viewport) (w h left top : ℚ) (v : Vel) :
    (ℚ × ℚ) × Vel :=
  if v.paused then ((left, top), v) else
  let left1 := left + v.dx
  let top1 := top + v.dy
  let dx1 := if left1 ≤ 0 ∨ left1 + w ≥ vp.w then -v.dx else v.dx
  let dy1 := if top1 ≤ 0 ∨ top1 + h ≥ vp.h then -v.dy else v.dy
  ((left1, top1), { v with dx := dx1, dy := dy1 })

/-- The whole-roster state: the element list and the index-aligned
`velocities` array. -/
structure St where
  imgs : List Img
  vels : List Vel
deriving DecidableEq, Repr

/-- One full frame of the clamping `animate` loop over the roster. -/
def animate (vp : Viewport) (s : St) : St :=
  { imgs := List.zipWith (fun im v => (animateBody vp im v).1) s.imgs s.vels,
    vels := List.zipWith (fun im v => (animateBody vp im v).2) s.imgs s.vels }

/-- The `mouseenter` closure for index `i`:
`velocities.forEach((v, j) => v.paused = (j === i))`, with `j` the running
`forEach` index starting at `k`. -/
def mouseenterAux (i : ℕ) : ℕ → List Vel → List Vel
  | _, [] => []
  | k, v :: rest => { v with paused := k == i } :: mouseenterAux i (k + 1) rest

/-- The `mouseenter` (and `touchstart`) handler registered for index `i`. -/
def mouseenter (i : ℕ) (vels : List Vel) : List Vel := mouseenterAux i 0 vels

/-- The `mouseleave` closure for index `i`:
`velocities[i].paused = false` (the index is always valid in the script,
since the closure captures a `forEach` index). -/
def mouseleave (i : ℕ) (vels : List Vel) : List Vel :=
  match vels[i]? with
  | some v => vels.set i { v with paused := false }
  | none => vels

/-- The `mouseenter` handler acting on the whole state: it only touches the
`velocities` array. -/
def mouseenterSt (i : ℕ) (s : St) : St := { s with vels := mouseenter i s.vels }

/-- The `mouseleave` handler acting on the whole state: it only touches the
`velocities` array. -/
def mouseleaveSt (i : ℕ) (s : St) : St := { s with vels := mouseleave i s.vels }

/-- `clampAllPositionsToViewport` acting on the whole state (the resize
listener): it only touches the element styles, never `velocities`. -/
def clampAllSt (vp : Viewport) (s : St) : St :=
  { s with imgs := clampAllPositionsToViewport vp s.imgs }

/-- An inner `<img>` as `waitForAllImagesLoaded` observes it: the `complete`
flag and `naturalWidth` at observation time, and the (possibly absent) times
at which its `load` / `error` events fire after observation.  An image whose
load attempt already finished before observation (in particular one that
already failed: `complete` with `naturalWidth = 0`) never fires either event
again, so both times are `none` for it. -/
structure InnerImg where
  complete : Bool
  naturalWidth : ℚ
  loadTime : Option ℕ
  errorTime : Option ℕ
deriving DecidableEq, Repr

/-- A managed anchor element: `a.querySelector('img')` may find no image. -/
structure Anchor where
  innerImg : Option InnerImg
deriving DecidableEq, Repr

/-- Resolution time of the per-image promise: `0` (immediate) when
`img.complete && img.naturalWidth !== 0` at observation time, otherwise the
first of the `load` / `error` events, and `none` if neither ever fires. -/
def settleTime (img : InnerImg) : Option ℕ :=
  if img.complete = true ∧ img.naturalWidth ≠ 0 then some 0
  else
    match img.loadTime, img.errorTime with
    | some l, some e => some (min l e)
    | some l, none => some l
    | none, some e => some e
    | none, none => none

/-- Joining two promise resolution times: the later of the two, never if
either never resolves. -/
def promiseCombine : Option ℕ → Option ℕ → Option ℕ
  | some a, some b => some (max a b)
  | _, _ => none

/-- `Promise.all`: resolves at the last of its inputs, immediately when the
list is empty, and never if any input never resolves. -/
def promiseAll : List (Option ℕ) → Option ℕ
  | [] => some 0
  | t :: ts => promiseCombine t (promiseAll ts)

/-- `waitForAllImagesLoaded`: collect the inner images
(`images.map(a => a.querySelector('img')).filter(Boolean)`), build one
promise per image, and `Promise.all` them. -/
def waitForAllImagesLoaded (anchors : List Anchor) : Option ℕ :=
  promiseAll ((anchors.filterMap Anchor.innerImg).map settleTime)

/-- Velocity component drawn by `initializePositionsAndVelocities` in the
clamping variant: `sign * (0.6 + random * 0.9)` with `baseSpeed = 0.6`. -/
def initVelComp (s r : ℚ) : ℚ := s * (0.6 + r * 0.9)

/-- Velocity component drawn in the original `script.js`:
`sign * (1 + random * 0.5)`. -/
def initVelCompJS (s r : ℚ) : ℚ := s * (1 + r * 0.5)

end Rosmood
namespace Rosmood

theorem clamp_zero_bounds (n M : ℚ) (h : 0 ≤ M) :
    0 ≤ clamp n 0 M ∧ clamp n 0 M ≤ M := by
  unfold clamp
  constructor
  · exact le_max_left _ _
  · exact max_le h (min_le_left _ _)

theorem clampOne_bounds (vp : Viewport) (img : Img) :
    ∃ l t, (clampOne vp img).styleLeft = some l ∧ (clampOne vp img).styleTop = some t ∧
      0 ≤ l ∧ l ≤ max 0 (vp.w - jsOr img.rectWidth img.offsetWidth) ∧
      0 ≤ t ∧ t ≤ max 0 (vp.h - jsOr img.rectHeight img.offsetHeight) := by
  refine ⟨_, _, rfl, rfl, ?_, ?_, ?_, ?_⟩
  · exact (clamp_zero_bounds _ _ (le_max_left _ _)).1
  · exact (clamp_zero_bounds _ _ (le_max_left _ _)).2
  · exact (clamp_zero_bounds _ _ (le_max_left _ _)).1
  · exact (clamp_zero_bounds _ _ (le_max_left _ _)).2

theorem animateBody_bounds (vp : Viewport) (img : Img) (v : Vel)
    (hp : v.paused = false) :
    ∃ l t, (animateBody vp img v).1.styleLeft = some l ∧
      (animateBody vp img v).1.styleTop = some t ∧
      0 ≤ l ∧ l ≤ max 0 (vp.w - img.rectWidth) ∧
      0 ≤ t ∧ t ≤ max 0 (vp.h - img.rectHeight) := by
  unfold animateBody
  simp only [hp, Bool.false_eq_true, if_false]
  refine ⟨_, _, rfl, rfl, ?_, ?_, ?_, ?_⟩ <;> split_ifs <;> dsimp only <;>
    first
      | exact le_refl _
      | exact le_max_left _ _
      | linarith [le_max_left (0:ℚ) (vp.w - img.rectWidth),
                  le_max_left (0:ℚ) (vp.h - img.rectHeight)]

/-- C5: the `clamp` function is idempotent — `clamp (clamp n) = clamp n` for
every input, every pair of bounds, and in particular for the viewport-derived
bounds `[0, max 0 (viewportWidth - width)]` used by the scripts. -/
theorem clamp_idempotent (n mi ma l0 w : ℚ) (vp : Viewport) :
    clamp (clamp n mi ma) mi ma = clamp n mi ma ∧
    clamp (clamp l0 0 (max 0 (vp.w - w))) 0 (max 0 (vp.w - w)) =
      clamp l0 0 (max 0 (vp.w - w)) := by
  have key : ∀ x a b : ℚ, clamp (clamp x a b) a b = clamp x a b := by
    intro x a b
    unfold clamp
    rcases le_total a b with h | h
    · rw [min_eq_right, max_eq_right]
      · exact le_max_left _ _
      · exact max_le h (min_le_left _ _)
    · rw [max_eq_left (le_trans (min_le_left b x) h), min_eq_left h,
        max_eq_left h]
  exact ⟨key n mi ma, key l0 0 _⟩

/-- C2: with viewport 800×600 and one unpaused body of size 50×50 in state
`left = 798, top = 10, dx = 5, dy = 1`, one update of the clamping motion
engine produces `left = 750` (= 800 − 50), `dx = -5`, `top = 11`, and `dy`
unchanged (= 1). -/
theorem single_update_scenario :
    (animate ⟨800, 600⟩ ⟨[⟨some 798, some 10, 798, 10, 50, 50, 50, 50⟩], [⟨5, 1, false⟩]⟩).imgs.map Img.styleLeft = [some 750] ∧
    (animate ⟨800, 600⟩ ⟨[⟨some 798, some 10, 798, 10, 50, 50, 50, 50⟩], [⟨5, 1, false⟩]⟩).imgs.map Img.styleTop = [some 11] ∧
    (animate ⟨800, 600⟩ ⟨[⟨some 798, some 10, 798, 10, 50, 50, 50, 50⟩], [⟨5, 1, false⟩]⟩).vels = [⟨-5, 1, false⟩] := by
  norm_num [animate, animateBody, readLeft, readTop, jsOr, jsOrOpt]

end Rosmood
namespace Rosmood

/-- C1 (counterexample): the non-clamping `animate` variant violates the
boundary invariant.  Viewport 800×600, a 50×50 body at `left = 748` (which is
inside `[0, 750]`), `dx = 5`: one unpaused update writes back `left = 753`,
which exceeds `viewportWidth - width = 750` — the crossing is not corrected
before write-back, only the velocity sign is flipped. -/
theorem nonclamping_update_escapes_bounds :
    (0 ≤ (748 : ℚ) ∧ (748 : ℚ) ≤ 800 - 50) ∧
    (animateBodyNoClamp ⟨800, 600⟩ 50 50 748 10 ⟨5, 1, false⟩).1.1 = 753 ∧
    ¬((animateBodyNoClamp ⟨800, 600⟩ 50 50 748 10 ⟨5, 1, false⟩).1.1 ≤ 800 - 50) := by
  norm_num [animateBodyNoClamp]

/-- C1 (amended): for every body whose measured width/height are at most the
viewport dimensions, after a `clampAllPositionsToViewport` pass and after any
completed unpaused update of the clamping `animate` variant, the written-back
position satisfies `0 ≤ left ≤ viewportWidth - width` and
`0 ≤ top ≤ viewportHeight - height`; a boundary crossing is corrected in the
same update before write-back.  (The non-clamping variant does not satisfy
this; see the counterexample.) -/
theorem boundary_invariant_clamping (vp : Viewport) (img : Img) (v : Vel)
    (hw : jsOr img.rectWidth img.offsetWidth ≤ vp.w)
    (hh : jsOr img.rectHeight img.offsetHeight ≤ vp.h)
    (hw2 : img.rectWidth ≤ vp.w) (hh2 : img.rectHeight ≤ vp.h)
    (hp : v.paused = false) :
    (∃ l t, (clampOne vp img).styleLeft = some l ∧
      (clampOne vp img).styleTop = some t ∧
      0 ≤ l ∧ l ≤ vp.w - jsOr img.rectWidth img.offsetWidth ∧
      0 ≤ t ∧ t ≤ vp.h - jsOr img.rectHeight img.offsetHeight) ∧
    (∃ l t, (animateBody vp img v).1.styleLeft = some l ∧
      (animateBody vp img v).1.styleTop = some t ∧
      0 ≤ l ∧ l ≤ vp.w - img.rectWidth ∧
      0 ≤ t ∧ t ≤ vp.h - img.rectHeight) := by
  have e1 : max 0 (vp.w - jsOr img.rectWidth img.offsetWidth) =
      vp.w - jsOr img.rectWidth img.offsetWidth := max_eq_right (by linarith)
  have e2 : max 0 (vp.h - jsOr img.rectHeight img.offsetHeight) =
      vp.h - jsOr img.rectHeight img.offsetHeight := max_eq_right (by linarith)
  have e3 : max 0 (vp.w - img.rectWidth) = vp.w - img.rectWidth :=
    max_eq_right (by linarith)
  have e4 : max 0 (vp.h - img.rectHeight) = vp.h - img.rectHeight :=
    max_eq_right (by linarith)
  constructor
  · obtain ⟨l, t, h⟩ := clampOne_bounds vp img
    exact ⟨l, t, by rw [← e1, ← e2]; exact h⟩
  · obtain ⟨l, t, h⟩ := animateBody_bounds vp img v hp
    exact ⟨l, t, by rw [← e3, ← e4]; exact h⟩

theorem boundary_invariant_clamping_witness :
    ∃ l t,
      (animateBody ⟨800, 600⟩ ⟨some 798, some 10, 798, 10, 50, 50, 50, 50⟩
        ⟨5, 1, false⟩).1.styleLeft = some l ∧
      (animateBody ⟨800, 600⟩ ⟨some 798, some 10, 798, 10, 50, 50, 50, 50⟩
        ⟨5, 1, false⟩).1.styleTop = some t ∧
      0 ≤ l ∧ l ≤ 800 - 50 ∧ 0 ≤ t ∧ t ≤ 600 - 50 :=
  (boundary_invariant_clamping ⟨800, 600⟩ ⟨some 798, some 10, 798, 10, 50, 50, 50, 50⟩
    ⟨5, 1, false⟩ (by norm_num [jsOr]) (by norm_num [jsOr]) (by norm_num)
    (by norm_num) rfl).2

/-- C10: one-step containment for the clamping `animate` variant holds
unconditionally — from any starting position (however far outside the
viewport) and any velocity, a single unpaused update writes back a position
inside `[0, max 0 (viewportWidth - width)] × [0, max 0 (viewportHeight -
height)]`, with no precondition that the body was previously inside. -/
theorem one_step_containment (vp : Viewport) (img : Img) (v : Vel)
    (hp : v.paused = false) :
    ∃ l t, (animateBody vp img v).1.styleLeft = some l ∧
      (animateBody vp img v).1.styleTop = some t ∧
      0 ≤ l ∧ l ≤ max 0 (vp.w - img.rectWidth) ∧
      0 ≤ t ∧ t ≤ max 0 (vp.h - img.rectHeight) :=
  animateBody_bounds vp img v hp

theorem one_step_containment_witness :
    ∃ l t,
      (animateBody ⟨300, 200⟩ ⟨some (-5000), some 9999, 0, 0, 40, 40, 40, 40⟩
        ⟨7, -3, false⟩).1.styleLeft = some l ∧
      (animateBody ⟨300, 200⟩ ⟨some (-5000), some 9999, 0, 0, 40, 40, 40, 40⟩
        ⟨7, -3, false⟩).1.styleTop = some t ∧
      0 ≤ l ∧ l ≤ max 0 (300 - 40) ∧ 0 ≤ t ∧ t ≤ max 0 (200 - 40) :=
  one_step_containment ⟨300, 200⟩ ⟨some (-5000), some 9999, 0, 0, 40, 40, 40, 40⟩
    ⟨7, -3, false⟩ rfl

/-- C6: for every roster state and every viewport (however small), the
`clampAllPositionsToViewport` pass leaves the whole `velocities` array
(hence every `dx`, `dy`, and `paused` flag) unchanged, and every resulting
position satisfies `0 ≤ left ≤ max 0 (viewportWidth - width)` and
`0 ≤ top ≤ max 0 (viewportHeight - height)`. -/
theorem resize_safety (vp : Viewport) (s : St) :
    (clampAllSt vp s).vels = s.vels ∧
    ∀ (j : ℕ) (img : Img), (clampAllSt vp s).imgs[j]? = some img →
      ∃ l t, img.styleLeft = some l ∧ img.styleTop = some t ∧
        0 ≤ l ∧ l ≤ max 0 (vp.w - jsOr img.rectWidth img.offsetWidth) ∧
        0 ≤ t ∧ t ≤ max 0 (vp.h - jsOr img.rectHeight img.offsetHeight) := by
  refine ⟨rfl, ?_⟩
  intro j img hj
  simp only [clampAllSt, clampAllPositionsToViewport, List.getElem?_map] at hj
  obtain ⟨i0, hi0, rfl⟩ := Option.map_eq_some'.mp hj
  have hrw : (clampOne vp i0).rectWidth = i0.rectWidth := rfl
  have hrh : (clampOne vp i0).rectHeight = i0.rectHeight := rfl
  have how : (clampOne vp i0).offsetWidth = i0.offsetWidth := rfl
  have hoh : (clampOne vp i0).offsetHeight = i0.offsetHeight := rfl
  rw [hrw, hrh, how, hoh]
  exact clampOne_bounds vp i0

theorem resize_safety_witness :
    (clampAllSt ⟨100, 100⟩ ⟨[⟨some 500, some (-3), 10, 10, 30, 30, 30, 30⟩],
        [⟨2, 3, true⟩]⟩).vels = [⟨2, 3, true⟩] ∧
    ∃ l t,
      (Option.getD (clampAllSt ⟨100, 100⟩ ⟨[⟨some 500, some (-3), 10, 10, 30, 30, 30, 30⟩],
        [⟨2, 3, true⟩]⟩).imgs[0]? (⟨none, none, 0, 0, 0, 0, 0, 0⟩ : Img)).styleLeft = some l ∧
      (Option.getD (clampAllSt ⟨100, 100⟩ ⟨[⟨some 500, some (-3), 10, 10, 30, 30, 30, 30⟩],
        [⟨2, 3, true⟩]⟩).imgs[0]? (⟨none, none, 0, 0, 0, 0, 0, 0⟩ : Img)).styleTop = some t ∧
      0 ≤ l ∧ l ≤ max 0 (100 - jsOr 30 30) ∧ 0 ≤ t ∧ t ≤ max 0 (100 - jsOr 30 30) := by
  have h := resize_safety ⟨100, 100⟩ ⟨[⟨some 500, some (-3), 10, 10, 30, 30, 30, 30⟩],
    [⟨2, 3, true⟩]⟩
  refine ⟨h.1, ?_⟩
  exact h.2 0 _ rfl

end Rosmood
namespace Rosmood

theorem mouseenterAux_getElem? (i : ℕ) (vels : List Vel) :
    ∀ k j : ℕ, (mouseenterAux i k vels)[j]? =
      Option.map (fun v => { v with paused := (k + j) == i }) vels[j]? := by
  induction vels with
  | nil => intro k j; rfl
  | cons v rest ih =>
    intro k j
    cases j with
    | zero => simp [mouseenterAux]
    | succ j =>
      simp only [mouseenterAux, List.getElem?_cons_succ, ih (k + 1) j]
      have : k + 1 + j = k + (j + 1) := by omega
      rw [this]

/-- C3: triggering `mouseenter` (or `touchstart`) on index `i` sets
`paused = true` for index `i` and `paused = false` for every `j ≠ i`,
regardless of prior state; hence at most one body is paused afterwards, and
hovering body 0 then body 1 leaves only body 1 paused. -/
theorem pause_exclusivity (i : ℕ) (vels : List Vel) :
    (∀ (j : ℕ) (v : Vel), (mouseenter i vels)[j]? = some v →
      v.paused = (j == i)) ∧
    (∀ (j1 j2 : ℕ) (u w : Vel), j1 ≠ j2 →
      (mouseenter i vels)[j1]? = some u → (mouseenter i vels)[j2]? = some w →
      ¬(u.paused = true ∧ w.paused = true)) ∧
    (∀ (j : ℕ) (v : Vel), (mouseenter 1 (mouseenter 0 vels))[j]? = some v →
      v.paused = (j == 1)) := by
  have key : ∀ (i' : ℕ) (vs : List Vel) (j : ℕ) (v : Vel),
      (mouseenter i' vs)[j]? = some v → v.paused = (j == i') := by
    intro i' vs j v h
    rw [mouseenter, mouseenterAux_getElem? i' vs 0 j] at h
    obtain ⟨w, _, rfl⟩ := Option.map_eq_some'.mp h
    simp
  refine ⟨key i vels, ?_, key 1 (mouseenter 0 vels)⟩
  intro j1 j2 u w hne h1 h2 hpq
  have e1 := key i vels j1 u h1
  have e2 := key i vels j2 w h2
  have b1 : (j1 == i) = true := e1 ▸ hpq.1
  have b2 : (j2 == i) = true := e2 ▸ hpq.2
  exact hne ((Nat.beq_eq_true_eq j1 i ▸ b1).trans (Nat.beq_eq_true_eq j2 i ▸ b2).symm)

theorem pause_exclusivity_witness :
    (Vel.mk 2 2 true).paused = (1 == 1) :=
  (pause_exclusivity 0 [⟨1, 1, false⟩, ⟨2, 2, true⟩]).2.2 1 ⟨2, 2, true⟩ rfl

/-- C7: `mouseleave` on index `i` sets `paused = false` for index `i` only;
the element styles (positions) are untouched, and every other index's whole
velocity record — `dx`, `dy`, `paused` — is unchanged. -/
theorem resume_locality (i : ℕ) (s : St) (v : Vel) (h : s.vels[i]? = some v) :
    (mouseleaveSt i s).imgs = s.imgs ∧
    (mouseleaveSt i s).vels[i]? = some ⟨v.dx, v.dy, false⟩ ∧
    ∀ j : ℕ, j ≠ i → (mouseleaveSt i s).vels[j]? = s.vels[j]? := by
  have hlen : i < s.vels.length := (List.getElem?_eq_some.mp h).1
  refine ⟨rfl, ?_, ?_⟩
  · simp only [mouseleaveSt, mouseleave, h]
    rw [List.getElem?_set_self hlen]
  · intro j hj
    simp only [mouseleaveSt, mouseleave, h]
    exact List.getElem?_set_ne (fun e => hj e.symm)

theorem resume_locality_witness :
    (mouseleaveSt 0 ⟨[], [⟨4, 5, true⟩]⟩).imgs = [] ∧
    (mouseleaveSt 0 ⟨[], [⟨4, 5, true⟩]⟩).vels[0]? = some ⟨4, 5, false⟩ ∧
    ∀ j : ℕ, j ≠ 0 → (mouseleaveSt 0 ⟨[], [⟨4, 5, true⟩]⟩).vels[j]? =
      (St.mk [] [⟨4, 5, true⟩]).vels[j]? :=
  resume_locality 0 ⟨[], [⟨4, 5, true⟩]⟩ ⟨4, 5, true⟩ rfl

end Rosmood
namespace Rosmood

/-- C8: a stored coordinate of exactly `0` is indistinguishable from a
missing one — when the inline `left`/`top` style parses to `0`, both the
clamp pass and the clamping update read exactly what they would read with no
style at all: they fall back to the bounding-box offset, then to `0`. -/
theorem zero_coordinate_fallback (vp : Viewport) (img : Img) (v : Vel)
    (hL : img.styleLeft = some 0) (hT : img.styleTop = some 0)
    (hp : v.paused = false) :
    readLeft img = readLeft { img with styleLeft := none } ∧
    readTop img = readTop { img with styleTop := none } ∧
    (img.rectLeft = 0 → readLeft img = 0) ∧
    clampOne vp img = clampOne vp { img with styleLeft := none, styleTop := none } ∧
    animateBody vp img v =
      animateBody vp { img with styleLeft := none, styleTop := none } v := by
  obtain ⟨sl, st, rl, rt, rw0, rh0, ow, oh⟩ := img
  simp only [Img.mk.injEq] at hL hT ⊢
  cases hL
  cases hT
  refine ⟨?_, ?_, ?_, ?_, ?_⟩
  · simp [readLeft, jsOrOpt]
  · simp [readTop, jsOrOpt]
  · intro h
    simp [readLeft, jsOrOpt, jsOr, h]
  · simp [clampOne, readLeft, readTop, jsOrOpt]
  · simp [animateBody, readLeft, readTop, jsOrOpt, hp]

theorem zero_coordinate_fallback_witness :
    readLeft ⟨some 0, some 0, 33, 44, 10, 10, 10, 10⟩ =
      readLeft { (⟨some 0, some 0, 33, 44, 10, 10, 10, 10⟩ : Img) with styleLeft := none } :=
  (zero_coordinate_fallback ⟨20, 20⟩ ⟨some 0, some 0, 33, 44, 10, 10, 10, 10⟩
    ⟨1, 1, false⟩ rfl rfl rfl).1

/-- C9: no body is ever stationary — each initial velocity component has
magnitude at least the base speed (0.6 in the clamping variant, 1 in the
original), hence is nonzero, and every subsequent operation either keeps a
velocity component or multiplies it by −1 (`animate` in both variants flips
signs only; `mouseenter`/`mouseleave` never change `dx`/`dy`), so it stays
nonzero. -/
theorem velocity_never_zero (s r wq hq lq tq : ℚ) (vp : Viewport) (img : Img)
    (v : Vel) (i : ℕ) (vels : List Vel)
    (hs : s = 1 ∨ s = -1) (hr : 0 ≤ r) :
    (initVelComp s r ≠ 0 ∧
      ((0.6 : ℚ) ≤ initVelComp s r ∨ initVelComp s r ≤ -(0.6 : ℚ))) ∧
    (initVelCompJS s r ≠ 0 ∧
      ((1 : ℚ) ≤ initVelCompJS s r ∨ initVelCompJS s r ≤ -(1 : ℚ))) ∧
    ((animateBody vp img v).2.dx = v.dx ∨ (animateBody vp img v).2.dx = -v.dx) ∧
    ((animateBody vp img v).2.dy = v.dy ∨ (animateBody vp img v).2.dy = -v.dy) ∧
    ((animateBodyNoClamp vp wq hq lq tq v).2.dx = v.dx ∨
      (animateBodyNoClamp vp wq hq lq tq v).2.dx = -v.dx) ∧
    ((animateBodyNoClamp vp wq hq lq tq v).2.dy = v.dy ∨
      (animateBodyNoClamp vp wq hq lq tq v).2.dy = -v.dy) ∧
    (v.dx ≠ 0 → (animateBody vp img v).2.dx ≠ 0) ∧
    (v.dy ≠ 0 → (animateBody vp img v).2.dy ≠ 0) ∧
    (∀ (j : ℕ) (u : Vel), (mouseenter i vels)[j]? = some u →
      ∃ w0, vels[j]? = some w0 ∧ u.dx = w0.dx ∧ u.dy = w0.dy) ∧
    (∀ (j : ℕ) (u : Vel), (mouseleave i vels)[j]? = some u →
      ∃ w0, vels[j]? = some w0 ∧ u.dx = w0.dx ∧ u.dy = w0.dy) := by
  have comp : ∀ b c : ℚ, 0 < b → 0 ≤ c →
      s * (b + r * c) ≠ 0 ∧ (b ≤ s * (b + r * c) ∨ s * (b + r * c) ≤ -b) := by
    intro b c hb hc
    rcases hs with rfl | rfl
    · have hge : b ≤ 1 * (b + r * c) := by nlinarith
      refine ⟨?_, Or.inl hge⟩
      intro h0
      rw [h0] at hge
      linarith
    · have hle : (-1 : ℚ) * (b + r * c) ≤ -b := by nlinarith
      refine ⟨?_, Or.inr hle⟩
      intro h0
      rw [h0] at hle
      linarith
  have flips : ∀ v' : Vel,
      ((animateBody vp img v').2.dx = v'.dx ∨ (animateBody vp img v').2.dx = -v'.dx) ∧
      ((animateBody vp img v').2.dy = v'.dy ∨ (animateBody vp img v').2.dy = -v'.dy) := by
    intro v'
    unfold animateBody
    by_cases hp : v'.paused = true
    · simp [hp]
    · simp only [hp, if_false, Bool.false_eq_true]
      constructor <;> (dsimp only; split_ifs <;> simp)
  have flipsNC :
      ((animateBodyNoClamp vp wq hq lq tq v).2.dx = v.dx ∨
        (animateBodyNoClamp vp wq hq lq tq v).2.dx = -v.dx) ∧
      ((animateBodyNoClamp vp wq hq lq tq v).2.dy = v.dy ∨
        (animateBodyNoClamp vp wq hq lq tq v).2.dy = -v.dy) := by
    unfold animateBodyNoClamp
    by_cases hp : v.paused = true
    · simp [hp]
    · simp only [hp, if_false, Bool.false_eq_true]
      constructor <;> (dsimp only; split_ifs <;> simp)
  refine ⟨?_, ?_, (flips v).1, (flips v).2, flipsNC.1, flipsNC.2, ?_, ?_, ?_, ?_⟩
  · have := comp 0.6 0.9 (by norm_num) (by norm_num)
    rw [show s * (0.6 + r * 0.9) = initVelComp s r from rfl] at this
    exact this
  · have := comp 1 0.5 (by norm_num) (by norm_num)
    rw [show s * (1 + r * 0.5) = initVelCompJS s r from rfl] at this
    exact this
  · intro hnz
    rcases (flips v).1 with h | h <;> rw [h]
    · exact hnz
    · simpa using hnz
  · intro hnz
    rcases (flips v).2 with h | h <;> rw [h]
    · exact hnz
    · simpa using hnz
  · intro j u h
    rw [mouseenter, mouseenterAux_getElem? i vels 0 j] at h
    obtain ⟨w0, hw0, rfl⟩ := Option.map_eq_some'.mp h
    exact ⟨w0, hw0, rfl, rfl⟩
  · intro j u h
    unfold mouseleave at h
    cases hv : vels[i]? with
    | none =>
      rw [hv] at h
      exact ⟨u, h, rfl, rfl⟩
    | some v0 =>
      rw [hv] at h
      by_cases hij : j = i
      · subst hij
        have hlen : j < vels.length := (List.getElem?_eq_some.mp hv).1
        rw [List.getElem?_set_self hlen] at h
        have he := Option.some.inj h
        subst he
        exact ⟨v0, hv, rfl, rfl⟩
      · rw [List.getElem?_set_ne (fun e => hij e.symm)] at h
        exact ⟨u, h, rfl, rfl⟩

theorem velocity_never_zero_witness :
    initVelComp 1 0 ≠ 0 ∧
      ((0.6 : ℚ) ≤ initVelComp 1 0 ∨ initVelComp 1 0 ≤ -(0.6 : ℚ)) :=
  (velocity_never_zero 1 0 0 0 0 0 ⟨10, 10⟩ ⟨none, none, 0, 0, 0, 0, 0, 0⟩
    ⟨1, 1, false⟩ 0 [] (Or.inl rfl) le_rfl).1

end Rosmood
namespace Rosmood

theorem promiseAll_isSome (ts : List (Option ℕ)) :
    (promiseAll ts).isSome = true ↔ ∀ t ∈ ts, t.isSome = true := by
  induction ts with
  | nil => simp [promiseAll]
  | cons t ts ih =>
    cases t with
    | none => simp [promiseAll, promiseCombine]
    | some a =>
      cases hts : promiseAll ts with
      | none => simp [promiseAll, promiseCombine, hts, ← ih]
      | some b => simp [promiseAll, promiseCombine, hts, ← ih]

theorem promiseCombine_none (y : Option ℕ) : promiseCombine none y = none := by
  cases y <;> rfl

/-- C4 (counterexample): an image already known to have failed at observation
time — `complete = true` with `naturalWidth = 0`, its `load`/`error` events
already fired and never firing again — is NOT counted settled immediately:
the `complete && naturalWidth !== 0` check excludes it, the late-attached
listeners never fire, its promise never resolves, and the whole gate hangs. -/
theorem readiness_gate_failed_image_hangs :
    settleTime ⟨true, 0, none, none⟩ = none ∧
    waitForAllImagesLoaded [⟨some ⟨true, 0, none, none⟩⟩] = none := by
  constructor
  · unfold settleTime
    rw [if_neg (by simp)]
  · unfold waitForAllImagesLoaded
    rw [List.filterMap_cons_some
        (show Anchor.innerImg ⟨some ⟨true, 0, none, none⟩⟩ =
          some ⟨true, 0, none, none⟩ from rfl),
      List.filterMap_nil, List.map_cons, List.map_nil,
      show settleTime ⟨true, 0, none, none⟩ = none by
        unfold settleTime; rw [if_neg (by simp)]]
    exact promiseCombine_none _

/-- C4 (amended): `waitForAllImagesLoaded` completes once every element's
embedded image is settled: an empty collection completes immediately, an
element with no inner image contributes no waiting obligation, an image
already loaded successfully at observation time (`complete` with nonzero
`naturalWidth`) is counted settled immediately, any other image is counted
settled only on whichever of its post-observation `load`/`error` signals
fires first — so an image that already failed before observation, whose
signals never refire, is never counted settled and stalls the gate — and
completion happens exactly when every embedded image settles. -/
theorem readiness_gate_settlement (e0 : Anchor) (img1 img2 img3 : InnerImg)
    (l er : ℕ) (anchors : List Anchor)
    (h0 : e0.innerImg = none)
    (h1c : img1.complete = true) (h1w : img1.naturalWidth ≠ 0)
    (h2 : ¬(img2.complete = true ∧ img2.naturalWidth ≠ 0))
    (h2l : img2.loadTime = some l) (h2e : img2.errorTime = some er)
    (h3 : ¬(img3.complete = true ∧ img3.naturalWidth ≠ 0))
    (h3l : img3.loadTime = none) (h3e : img3.errorTime = none) :
    waitForAllImagesLoaded [] = some 0 ∧
    waitForAllImagesLoaded (e0 :: anchors) = waitForAllImagesLoaded anchors ∧
    settleTime img1 = some 0 ∧
    settleTime img2 = some (min l er) ∧
    settleTime img3 = none ∧
    waitForAllImagesLoaded (⟨some img3⟩ :: anchors) = none ∧
    ((waitForAllImagesLoaded anchors).isSome = true ↔
      ∀ img ∈ anchors.filterMap Anchor.innerImg, (settleTime img).isSome = true) := by
  have hst3 : settleTime img3 = none := by
    unfold settleTime
    rw [if_neg h3, h3l, h3e]
  refine ⟨rfl, ?_, ?_, ?_, hst3, ?_, ?_⟩
  · unfold waitForAllImagesLoaded
    rw [List.filterMap_cons_none h0]
  · unfold settleTime
    rw [if_pos ⟨h1c, h1w⟩]
  · unfold settleTime
    rw [if_neg h2, h2l, h2e]
  · unfold waitForAllImagesLoaded
    rw [List.filterMap_cons_some
        (show Anchor.innerImg ⟨some img3⟩ = some img3 from rfl),
      List.map_cons, hst3]
    exact promiseCombine_none _
  · unfold waitForAllImagesLoaded
    rw [promiseAll_isSome]
    constructor
    · intro h img hm
      exact h _ (List.mem_map_of_mem settleTime hm)
    · intro h t ht
      obtain ⟨img, hm, rfl⟩ := List.mem_map.mp ht
      exact h img hm

theorem readiness_gate_settlement_witness :
    settleTime ⟨false, 0, some 5, some 3⟩ = some (min 5 3) :=
  (readiness_gate_settlement ⟨none⟩ ⟨true, 10, none, none⟩ ⟨false, 0, some 5, some 3⟩
    ⟨true, 0, none, none⟩ 5 3 [] rfl rfl (by norm_num) (by simp) rfl rfl
    (by simp) rfl rfl).2.2.2.1

end Rosmood
